import Mathlib

/-!
Verification of the help-subcommand dispatcher of wasmer-js
(src/packages/cli/src/commands/help.ts).

The file under verification is a thin dispatcher: `runHelp` inspects the
first element of its argument list and prints either its own usage block,
the run descriptor's help text, the version descriptor's help text, or an
"Unrecognized subcommand" line followed by its own usage block.

The `Command` class and the `runCommand` / `versionCommand` descriptors live
outside the given source; they are modelled from the specification: a
descriptor carries a `name`, a `description` and a help-rendering capability
that prints its own help text.  Printing is modelled as the list of strings
passed to console writes, in order; one `console.log` call or one `help()`
call contributes one element.  Out-of-bounds array access is modelled
strictly (as an `Except` error) so that totality of `runHelp` is a theorem
rather than a modelling artefact.
-/

namespace WasmerJs

/-- Modelled from the spec: a `CommandDescriptor` (the external `Command`
objects `runCommand` and `versionCommand`), exposing a `name`, a
`description`, and a help-rendering capability whose output is the string
`helpBody`. -/
structure Command where
  name : String
  description : String
  helpBody : String
  deriving Repr, DecidableEq

/-- The dispatcher's own usage block, from `getHelpBody` in help.ts: the
literal template with the two subcommand lines interpolated, at render time,
from the live run and version descriptors. -/
def getHelpBody (runCommand versionCommand : Command) : String :=
  "USAGE:\n\n$ wasmer-js help [SUBCOMMAND]\n\nARGUMENTS:\n\n[SUBCOMMAND] - The subcommand we want to see the help message for \n    \n    The available subcommands (other than help) are:\n    "
    ++ runCommand.name ++ " - " ++ runCommand.description
    ++ "\n    "
    ++ versionCommand.name ++ " - " ++ versionCommand.description

/-- Strict array indexing: `args[i]` errors when `i` is out of bounds.
(JavaScript would yield `undefined`; the strict reading is the stronger one,
letting absence of out-of-bounds access be proved rather than assumed.) -/
def idx (args : List String) (i : Nat) : Except String String :=
  match args.get? i with
  | some s => Except.ok s
  | none => Except.error "index out of bounds"

/-- `runHelp` from help.ts.  The result is the ordered list of strings
printed to standard output.  The source condition
`args.length === 0 || args[0] === "help"` short-circuits, so `args[0]` is
only read once the list is known non-empty; the nested structure below
mirrors that. -/
def runHelp (runCommand versionCommand : Command) (args : List String) :
    Except String (List String) := do
  if args.length = 0 then
    pure [getHelpBody runCommand versionCommand]
  else
    let a0 ← idx args 0
    if a0 = "help" then
      pure [getHelpBody runCommand versionCommand]
    else if a0 = runCommand.name then
      pure [runCommand.helpBody]
    else if a0 = versionCommand.name then
      pure [versionCommand.helpBody]
    else
      pure ["Unrecognized subcommand: " ++ a0,
            getHelpBody runCommand versionCommand]

/-- The record passed to `new Command({...})` when the dispatcher registers
itself (help.ts lines 24-41). -/
structure RegisteredCommand where
  name : String
  description : String
  runCallback : List String → Except String (List String)
  helpBodyOf : Unit → String

/-- `helpCommand`, the dispatcher's own registration: name "help",
description, `runHelp` as the run callback, and the live help-body
generator. -/
def helpCommand (runCommand versionCommand : Command) : RegisteredCommand where
  name := "help"
  description := "Show the usage of the passed subcommand"
  runCallback := runHelp runCommand versionCommand
  helpBodyOf := fun _ => getHelpBody runCommand versionCommand

/-- The observable state around an invocation: the two live descriptors and
the stream of lines printed so far. -/
structure World where
  runCommand : Command
  versionCommand : Command
  stdout : List String
  deriving Repr, DecidableEq

/-- The lines an invocation prints (empty on the unreachable error case). -/
def linesOf (runCommand versionCommand : Command) (args : List String) :
    List String :=
  match runHelp runCommand versionCommand args with
  | Except.ok out => out
  | Except.error _ => []

/-- One invocation of `runHelp` as a step on the observable state: it
appends its printed lines to stdout and touches nothing else. -/
def invoke (w : World) (args : List String) : World :=
  { w with stdout := w.stdout ++ linesOf w.runCommand w.versionCommand args }

/-- Re-registering descriptors before an invocation: the world with the run
and version descriptors replaced. -/
def setDescriptors (w : World) (r v : Command) : World :=
  { w with runCommand := r, versionCommand := v }

/-- The output format of spec section 6, transcribed byte-for-byte from the
spec (trailing space after "for", the whitespace-only indented line, and the
two interpolated subcommand lines included).  This definition follows the
spec's words, to be compared against `getHelpBody`, which follows the
source. -/
def specUsageBlock (runCommand versionCommand : Command) : String :=
  "USAGE:\n\n$ wasmer-js help [SUBCOMMAND]\n\nARGUMENTS:\n\n[SUBCOMMAND] - The subcommand we want to see the help message for \n    \n    The available subcommands (other than help) are:\n    "
    ++ runCommand.name ++ " - " ++ runCommand.description
    ++ "\n    "
    ++ versionCommand.name ++ " - " ++ versionCommand.description

/-- Concrete descriptors used by witnesses. -/
def demoRun : Command where
  name := "run"
  description := "Run a WebAssembly file"
  helpBody := "run subcommand help text"

/-- Concrete descriptors used by witnesses. -/
def demoVersion : Command where
  name := "version"
  description := "Print the version of wasmer-js"
  helpBody := "version subcommand help text"

/- Helper lemmas, shared by the claim theorems below. -/

theorem idx_cons_zero (a : String) (rest : List String) :
    idx (a :: rest) 0 = Except.ok a := rfl

/-- On a non-empty argument list, `runHelp` reduces to the four-way decision
on the first element, in source order. -/
theorem runHelp_cons (r v : Command) (a : String) (rest : List String) :
    runHelp r v (a :: rest) =
      if a = "help" then Except.ok [getHelpBody r v]
      else if a = r.name then Except.ok [r.helpBody]
      else if a = v.name then Except.ok [v.helpBody]
      else Except.ok ["Unrecognized subcommand: " ++ a, getHelpBody r v] :=
  rfl

/-- C1: for `args = []` and `args = ["help"]`, `runHelp` prints exactly the
literal usage block of spec section 6 (byte-for-byte, trailing space after
"for" and the whitespace-only indented line included), with the two
subcommand lines interpolated from the run and version descriptors' name and
description fields. -/
theorem runHelp_prints_spec_usage_block (r v : Command) :
    runHelp r v [] = Except.ok [specUsageBlock r v] ∧
    runHelp r v ["help"] = Except.ok [specUsageBlock r v] :=
  ⟨rfl, rfl⟩

/-- C2: for `args = ["run"]`, `runHelp` routes to the run descriptor's
help-rendering operation and prints exactly that descriptor's help text.
The code compares `args[0]` against the descriptor's registered name, which
the spec gives as "run"; the hypothesis records that registration. -/
theorem runHelp_routes_run (r v : Command) (hr : r.name = "run") :
    runHelp r v ["run"] = Except.ok [r.helpBody] := by
  simp [runHelp_cons, hr]

theorem runHelp_routes_run_witness :
    runHelp demoRun demoVersion ["run"] = Except.ok [demoRun.helpBody] :=
  runHelp_routes_run demoRun demoVersion rfl

/-- C3: for `args = ["version"]`, `runHelp` routes to the version
descriptor's help-rendering operation and prints exactly that descriptor's
help text.  The hypotheses record the spec-given registered names of the two
descriptors ("run" and "version"). -/
theorem runHelp_routes_version (r v : Command) (hr : r.name = "run")
    (hv : v.name = "version") :
    runHelp r v ["version"] = Except.ok [v.helpBody] := by
  simp [runHelp_cons, hr, hv]

theorem runHelp_routes_version_witness :
    runHelp demoRun demoVersion ["version"] = Except.ok [demoVersion.helpBody] :=
  runHelp_routes_version demoRun demoVersion rfl rfl

/-- C4: for every non-empty argument list whose first element is neither
"help" nor the run descriptor's registered name nor the version descriptor's
registered name, `runHelp` prints the single line
"Unrecognized subcommand: <args[0]>" followed immediately by the
dispatcher's own full usage block, and nothing else. -/
theorem runHelp_unrecognized (r v : Command) (a : String) (rest : List String)
    (h1 : a ≠ "help") (h2 : a ≠ r.name) (h3 : a ≠ v.name) :
    runHelp r v (a :: rest) =
      Except.ok ["Unrecognized subcommand: " ++ a, getHelpBody r v] := by
  rw [runHelp_cons, if_neg h1, if_neg h2, if_neg h3]

theorem runHelp_unrecognized_witness :
    runHelp demoRun demoVersion ["bogus"] =
      Except.ok ["Unrecognized subcommand: " ++ "bogus",
                 getHelpBody demoRun demoVersion] :=
  runHelp_unrecognized demoRun demoVersion "bogus" []
    (by decide) (by decide) (by decide)

/-- C5: `runHelp` is total and never throws: under the strict indexing model
(where an out-of-bounds `args[0]` would be an error), every argument list,
the empty one included, yields an `Except.ok` result — exactly one branch of
the decision chain fires and completes with printed output, never a raised
error. -/
theorem runHelp_total (r v : Command) (args : List String) :
    ∃ out, runHelp r v args = Except.ok out := by
  match args with
  | [] => exact ⟨_, rfl⟩
  | a :: rest =>
    rw [runHelp_cons]
    by_cases h1 : a = "help"
    · exact ⟨_, by rw [if_pos h1]⟩
    · by_cases h2 : a = r.name
      · exact ⟨_, by rw [if_neg h1, if_pos h2]⟩
      · by_cases h3 : a = v.name
        · exact ⟨_, by rw [if_neg h1, if_neg h2, if_pos h3]⟩
        · exact ⟨_, by rw [if_neg h1, if_neg h2, if_neg h3]⟩

/-- C6: the dispatcher's usage block is generated freshly at render time
from the live descriptors: replacing the descriptors before an invocation
makes the printed subcommand lines show the replacement's current name and
description, with no copy of the old values surviving. -/
theorem getHelpBody_renders_live (w : World) (r v : Command) :
    (invoke (setDescriptors w r v) []).stdout =
      w.stdout ++ [getHelpBody r v] ∧
    getHelpBody r v =
      "USAGE:\n\n$ wasmer-js help [SUBCOMMAND]\n\nARGUMENTS:\n\n[SUBCOMMAND] - The subcommand we want to see the help message for \n    \n    The available subcommands (other than help) are:\n    "
        ++ r.name ++ " - " ++ r.description
        ++ "\n    "
        ++ v.name ++ " - " ++ v.description :=
  ⟨rfl, rfl⟩

/-- C7: `runHelp` is idempotent and stateless: an invocation leaves both
descriptors untouched, and two successive invocations with identical
arguments append the very same lines to the output stream both times. -/
theorem runHelp_idempotent (w : World) (args : List String) :
    (invoke w args).runCommand = w.runCommand ∧
    (invoke w args).versionCommand = w.versionCommand ∧
    ∃ out,
      (invoke w args).stdout = w.stdout ++ out ∧
      (invoke (invoke w args) args).stdout = (invoke w args).stdout ++ out :=
  ⟨rfl, rfl, linesOf w.runCommand w.versionCommand args, rfl, rfl⟩

/-- C8: the dispatcher registers itself as a command whose name is "help",
whose description is "Show the usage of the passed subcommand", and whose
run callback is `runHelp`. -/
theorem helpCommand_registration (r v : Command) :
    (helpCommand r v).name = "help" ∧
    (helpCommand r v).description = "Show the usage of the passed subcommand" ∧
    (helpCommand r v).runCallback = runHelp r v :=
  ⟨rfl, rfl, rfl⟩

/-- C9: only the first argument is observed: two non-empty argument lists
with the same first element produce identical output, whatever follows. -/
theorem runHelp_ignores_tail (r v : Command) (a : String)
    (rest rest' : List String) :
    runHelp r v (a :: rest) = runHelp r v (a :: rest') := by
  rw [runHelp_cons, runHelp_cons]

/-- C10: the literal token "help" takes precedence over descriptor names:
for every pair of descriptors — including one whose registered name equals
"help", be it the run or the version descriptor — the input `["help"]`
prints the dispatcher's own usage block and invokes no descriptor's help
operation, because the first branch is evaluated before the name
comparisons. -/
theorem runHelp_help_precedence (r v : Command) :
    runHelp r v ["help"] = Except.ok [getHelpBody r v] := by
  simp [runHelp_cons]

end WasmerJs
